import Mathlib

/-!
A shallow embedding of the ScarperText ingestion pipeline (Node/Express
sources: `src/server.js` and `src/unnamed/part_000` … `part_005`).

External facilities (axios HTTP calls, the OpenAI-compatible rewrite
service, `JSON.parse`, the wall clock) are modelled as explicit
parameters; the control flow, store writes and string manipulation are
translated directly from the JavaScript source.
-/

set_option maxRecDepth 4000

/- ===================== JavaScript string helpers ===================== -/

/-- JavaScript `x || d` where `x` is a string (`""` is falsy). -/
def jsOrStr (x d : String) : String := if x = "" then d else x

/-- JavaScript `x || d` where `x` may be `undefined` (modelled `none`)
and `""` is falsy. -/
def jsOrOpt (x : Option String) (d : String) : String :=
  match x with
  | some s => jsOrStr s d
  | none => d

/-- JavaScript truthiness test for a possibly-undefined string:
`!x` holds when `x` is `undefined` or `""`. -/
def jsFalsy (x : Option String) : Bool :=
  match x with
  | some s => s = ""
  | none => true

/-- JavaScript `a || b` keeping the result as a possibly-undefined
string (`a` falsy yields `b` unchanged, even when `b` is `""` or
`undefined`). -/
def jsOrKeep (a b : Option String) : Option String :=
  match a with
  | some s => if s = "" then b else some s
  | none => b

/-- JavaScript whitespace recognised by `String.prototype.trim`
(the characters relevant to this corpus). -/
def jsWhitespace (c : Char) : Bool :=
  c = ' ' || c = '\t' || c = '\n' || c = '\r' || c = '\x0b' || c = '\x0c'

/-- JavaScript `s.trim()`: strip whitespace from both ends. -/
def jsTrim (s : String) : String :=
  ⟨((s.data.dropWhile jsWhitespace).reverse.dropWhile jsWhitespace).reverse⟩

/- ===================== Retry helper =====================
`retryOpenAIRequest(requestFn, retries = 3, delay = 1000)` appears
identically in `src/unnamed/part_002` (lines 69-85), `part_004`
(lines 40-54), `part_005` (lines 37-51) and the third file of
`src/server.js`:

    for (let i = 0; i < retries; i++) {
      try { return await requestFn(); }
      catch (err) {
        if (err.response?.status === 429 && i < retries - 1) {
          await new Promise((res) => setTimeout(res, delay));
          delay *= 2; // exponential backoff
        } else { throw err; }
      }
    }

The behaviour of `requestFn` on its successive invocations is the
environment: attempt `i` yields `req i`. -/

/-- An axios-style error: `status` is `err.response?.status`
(`none` models a network failure with no HTTP response). -/
structure AxiosError where
  status : Option Nat
  deriving DecidableEq, Repr

/-- Outcome of one invocation of `requestFn`. -/
inductive ReqOutcome where
  | ok (body : String)
  | err (e : AxiosError)
  deriving DecidableEq, Repr

/-- Trace of one run of `retryOpenAIRequest`: the waits slept between
attempts, the number of attempts issued, and the final result
(`none` models the `undefined` returned when the loop body never
runs, i.e. `retries = 0`). -/
structure RetryTrace where
  waits : List Nat
  attempts : Nat
  result : Option (Except AxiosError String)
  deriving Repr

/-- The `for (let i = 0; i < retries; i++)` loop of
`retryOpenAIRequest`, at attempt index `i` with current backoff
`delay`; the first argument counts the remaining iterations
(`retries - i`), so the guard `i < retries - 1` of the source reads
"more than one iteration remains". -/
def retryLoop (req : Nat → ReqOutcome) : Nat → Nat → Nat → RetryTrace
  | 0, _, _ => ⟨[], 0, none⟩
  | remaining + 1, i, delay =>
    match req i with
    | .ok v => ⟨[], 1, some (.ok v)⟩
    | .err e =>
      if e.status = some 429 ∧ 0 < remaining then
        let r := retryLoop req remaining (i + 1) (2 * delay)
        ⟨delay :: r.waits, r.attempts + 1, r.result⟩
      else ⟨[], 1, some (.error e)⟩

/-- `retryOpenAIRequest(requestFn, retries, delay)`. -/
def retryOpenAIRequest (req : Nat → ReqOutcome) (retries : Nat) (delay : Nat) :
    RetryTrace :=
  retryLoop req retries 0 delay

/-- The always-rate-limited environment: every attempt fails with
HTTP 429. -/
def always429 : Nat → ReqOutcome := fun _ => .err ⟨some 429⟩

/- ===================== Byte encodings =====================
`Buffer.from(s).toString("base64")` (document key in `part_002`,
`part_004`, `part_005` and the `/clean` handler of the first file of
`part_003`) and `crypto.createHash("sha256").update(url).digest("hex")`
(`getDocIdFromUrl`, `part_003` lines 249-251). -/

/-- UTF-8 encoding of one character, as byte values. -/
def utf8Enc (c : Char) : List Nat :=
  let n := c.toNat
  if n < 0x80 then [n]
  else if n < 0x800 then
    [0xC0 ||| (n >>> 6), 0x80 ||| (n &&& 0x3F)]
  else if n < 0x10000 then
    [0xE0 ||| (n >>> 12), 0x80 ||| ((n >>> 6) &&& 0x3F), 0x80 ||| (n &&& 0x3F)]
  else
    [0xF0 ||| (n >>> 18), 0x80 ||| ((n >>> 12) &&& 0x3F),
      0x80 ||| ((n >>> 6) &&& 0x3F), 0x80 ||| (n &&& 0x3F)]

/-- UTF-8 bytes of a string (what `Buffer.from` and `hash.update` see). -/
def strBytes (s : String) : List Nat :=
  (s.data.map utf8Enc).flatten

/-- The base64 alphabet. -/
def b64Alphabet : List Char :=
  "ABCDEFGHIJKLMNOPQRSTUVWXYZabcdefghijklmnopqrstuvwxyz0123456789+/".data

/-- Character for a 6-bit group. -/
def b64Char (n : Nat) : Char := b64Alphabet.getD n '='

/-- Standard base64 of a byte list, with `=` padding. -/
def base64Encode : List Nat → List Char
  | a :: b :: c :: rest =>
    b64Char (a >>> 2) :: b64Char (((a &&& 3) <<< 4) ||| (b >>> 4)) ::
      b64Char (((b &&& 15) <<< 2) ||| (c >>> 6)) :: b64Char (c &&& 63) ::
      base64Encode rest
  | [a, b] =>
    [b64Char (a >>> 2), b64Char (((a &&& 3) <<< 4) ||| (b >>> 4)),
      b64Char ((b &&& 15) <<< 2), '=']
  | [a] => [b64Char (a >>> 2), b64Char ((a &&& 3) <<< 4), '=', '=']
  | [] => []

/-- `Buffer.from(s).toString("base64")`. -/
def bufferBase64 (s : String) : String := ⟨base64Encode (strBytes s)⟩

/- SHA-256, as used by `getDocIdFromUrl`. -/

/-- Truncate to a 32-bit word. -/
def w32 (n : Nat) : Nat := n % 4294967296

/-- 32-bit right rotation (operand assumed `< 2^32`). -/
def rotr32 (n x : Nat) : Nat := w32 ((x >>> n) ||| (x <<< (32 - n)))

def sigma0 (x : Nat) : Nat := (rotr32 7 x) ^^^ (rotr32 18 x) ^^^ (x >>> 3)

def sigma1 (x : Nat) : Nat := (rotr32 17 x) ^^^ (rotr32 19 x) ^^^ (x >>> 10)

def bigSigma0 (x : Nat) : Nat := (rotr32 2 x) ^^^ (rotr32 13 x) ^^^ (rotr32 22 x)

def bigSigma1 (x : Nat) : Nat := (rotr32 6 x) ^^^ (rotr32 11 x) ^^^ (rotr32 25 x)

/-- SHA-256 round constants (FIPS 180-4, here in decimal). -/
def k256 : List Nat :=
  [1116352408, 1899447441, 3049323471, 3921009573,
   961987163, 1508970993, 2453635748, 2870763221,
   3624381080, 310598401, 607225278, 1426881987,
   1925078388, 2162078206, 2614888103, 3248222580,
   3835390401, 4022224774, 264347078, 604807628,
   770255983, 1249150122, 1555081692, 1996064986,
   2554220882, 2821834349, 2952996808, 3210313671,
   3336571891, 3584528711, 113926993, 338241895,
   666307205, 773529912, 1294757372, 1396182291,
   1695183700, 1986661051, 2177026350, 2456956037,
   2730485921, 2820302411, 3259730800, 3345764771,
   3516065817, 3600352804, 4094571909, 275423344,
   430227734, 506948616, 659060556, 883997877,
   958139571, 1322822218, 1537002063, 1747873779,
   1955562222, 2024104815, 2227730452, 2361852424,
   2428436474, 2756734187, 3204031479, 3329325298]

/-- SHA-256 initial hash values (FIPS 180-4, here in decimal). -/
def sha256Init : List Nat :=
  [1779033703, 3144134277, 1013904242, 2773480762,
   1359893119, 2600822924, 528734635, 1541459225]

/-- SHA-256 padding: `0x80`, zeros to 56 mod 64, 8-byte big-endian bit
length. -/
def sha256Pad (msg : List Nat) : List Nat :=
  let len := msg.length
  let bitLen := 8 * len
  let zeros := (55 + 64 - len % 64) % 64
  msg ++ [0x80] ++ List.replicate zeros 0 ++
    [(bitLen >>> 56) % 256, (bitLen >>> 48) % 256, (bitLen >>> 40) % 256,
     (bitLen >>> 32) % 256, (bitLen >>> 24) % 256, (bitLen >>> 16) % 256,
     (bitLen >>> 8) % 256, bitLen % 256]

/-- Big-endian 32-bit words from bytes. -/
def bytesToWords : List Nat → List Nat
  | a :: b :: c :: d :: rest =>
    ((a <<< 24) ||| (b <<< 16) ||| (c <<< 8) ||| d) :: bytesToWords rest
  | _ => []

/-- Extend the 16-word block to the 64-word message schedule.  The
accumulator is kept most-recent-first, so `w[i-2]` is index 1,
`w[i-7]` index 6, `w[i-15]` index 14 and `w[i-16]` index 15. -/
def extendScheduleRev : List Nat → Nat → List Nat
  | ws, 0 => ws
  | ws, n + 1 =>
    let wNew := w32 (sigma1 (ws.getD 1 0) + ws.getD 6 0 +
      sigma0 (ws.getD 14 0) + ws.getD 15 0)
    extendScheduleRev (wNew :: ws) n

/-- One round state `(a, b, c, d, e, f, g, h)` of the compression
function. -/
structure Sha256St where
  a : Nat
  b : Nat
  c : Nat
  d : Nat
  e : Nat
  f : Nat
  g : Nat
  h : Nat
  deriving Repr

/-- One compression round with round constant and schedule word. -/
def sha256Round (s : Sha256St) (kw : Nat × Nat) : Sha256St :=
  let ch := (s.e &&& s.f) ^^^ ((4294967295 ^^^ s.e) &&& s.g)
  let t1 := w32 (s.h + bigSigma1 s.e + ch + kw.1 + kw.2)
  let maj := (s.a &&& s.b) ^^^ (s.a &&& s.c) ^^^ (s.b &&& s.c)
  let t2 := w32 (bigSigma0 s.a + maj)
  ⟨w32 (t1 + t2), s.a, s.b, s.c, w32 (s.d + t1), s.e, s.f, s.g⟩

/-- Process one 64-byte block. -/
def sha256Block (hs : List Nat) (block : List Nat) : List Nat :=
  let w16 := (bytesToWords block).reverse
  let ws := (extendScheduleRev w16 48).reverse
  let st0 : Sha256St :=
    ⟨hs.getD 0 0, hs.getD 1 0, hs.getD 2 0, hs.getD 3 0,
      hs.getD 4 0, hs.getD 5 0, hs.getD 6 0, hs.getD 7 0⟩
  let fin := (k256.zip ws).foldl sha256Round st0
  [w32 (hs.getD 0 0 + fin.a), w32 (hs.getD 1 0 + fin.b),
   w32 (hs.getD 2 0 + fin.c), w32 (hs.getD 3 0 + fin.d),
   w32 (hs.getD 4 0 + fin.e), w32 (hs.getD 5 0 + fin.f),
   w32 (hs.getD 6 0 + fin.g), w32 (hs.getD 7 0 + fin.h)]

/-- Fold the block function over the padded message, 64 bytes at a
time; `blocks` is the number of 64-byte blocks remaining. -/
def sha256Blocks : Nat → List Nat → List Nat → List Nat
  | 0, hs, _ => hs
  | n + 1, hs, bytes => sha256Blocks n (sha256Block hs (bytes.take 64)) (bytes.drop 64)

/-- Lowercase hex digit. -/
def hexChar (n : Nat) : Char := "0123456789abcdef".data.getD n '0'

/-- Eight lowercase hex digits of a 32-bit word. -/
def word32Hex (w : Nat) : List Char :=
  [hexChar ((w >>> 28) &&& 15), hexChar ((w >>> 24) &&& 15),
   hexChar ((w >>> 20) &&& 15), hexChar ((w >>> 16) &&& 15),
   hexChar ((w >>> 12) &&& 15), hexChar ((w >>> 8) &&& 15),
   hexChar ((w >>> 4) &&& 15), hexChar (w &&& 15)]

/-- `crypto.createHash("sha256").update(s).digest("hex")`. -/
def sha256Hex (s : String) : String :=
  let padded := sha256Pad (strBytes s)
  let hs := sha256Blocks (padded.length / 64) sha256Init padded
  ⟨(hs.map word32Hex).flatten⟩

/-- `getDocIdFromUrl` (`src/unnamed/part_003`, lines 249-251). -/
def getDocIdFromUrl (url : String) : String := sha256Hex url

/- ===================== The hash-keyed pipeline (part_003) =====================
Second file of `src/unnamed/part_003`: `processArticle(article, category)`
(lines 254-310) checks Firestore under `getDocIdFromUrl(url)`, scrapes,
cleans, and writes with `{ merge: true }`.  The `/scrape` and `/clean`
HTTP endpoints it calls are the environment. -/

/-- Response of the `/clean` endpoint as destructured by
`processArticle`: `const { title, description } = cleanRes.data`. -/
structure CleanData where
  title : String
  description : String
  deriving DecidableEq, Repr

/-- The `processArticle` environment: the `/scrape` call (an axios
post that either throws or yields `data.text`) and the `/clean` call
(throws on a non-2xx response, else yields `{title, description}`). -/
structure PipeEnv where
  scrape : String → Except AxiosError String
  clean : String → Except AxiosError CleanData

/-- The article document written by `processArticle` (step 4). -/
structure Doc3 where
  url : String
  title : String
  description : String
  imageUrl : Option String
  createdAt : String
  source : String
  category : String
  insertedAt : String
  deriving DecidableEq, Repr

/-- The `articles` collection, keyed by document id. -/
abbrev Store3 : Type := List (String × Doc3)

/-- `docRef.get()`: the document stored under `k`, if any. -/
def store3Get (s : Store3) (k : String) : Option Doc3 :=
  (List.find? (fun p => p.1 = k) s).map (fun p => p.2)

/-- `docRef.set(..., { merge: true })` at the level of whole documents:
every field of `Doc3` is present in the written object, so the merge
replaces the document when the key exists and inserts it otherwise. -/
def store3Set (s : Store3) (k : String) (d : Doc3) : Store3 :=
  if (List.find? (fun p => p.1 = k) s).isSome then
    List.map (fun p => if p.1 = k then (k, d) else p) s
  else s ++ [(k, d)]

/-- An RSS `<item>` as `processArticle` reads it:
`article.link?.[0]`, `article.title?.[0]`, `article.enclosure?.[0].$.url`,
`article.pubDate?.[0]`. -/
structure RssArticle where
  link : Option String
  title : Option String
  enclosureUrl : Option String
  pubDate : Option String
  deriving Repr

/-- Terminal state of one `processArticle` run. -/
inductive ArtState where
  | noUrl
  | skipped
  | noContent
  | failed
  | persisted
  deriving DecidableEq, Repr

/-- Result of one `processArticle` run: the store afterwards, the
number of `/scrape` calls, the number of `/clean` calls, and the
terminal state. -/
structure RunResult where
  store : Store3
  scrapeCalls : Nat
  cleanCalls : Nat
  state : ArtState

/-- The document written at step 4 of `processArticle`. -/
def mkDoc3 (now : String) (article : RssArticle) (category url t : String)
    (c : CleanData) : Doc3 :=
  ⟨url, t, c.description, jsOrKeep article.enclosureUrl none,
    jsOrOpt article.pubDate now, "Times of India", category, now⟩

/-- Steps 2-4 of `processArticle` (scrape, clean, save), reached when
the existence check does not return early. -/
def processArticleBody (env : PipeEnv) (now : String) (article : RssArticle)
    (category url : String) (store : Store3) : RunResult :=
  match env.scrape url with
  | .error _ => ⟨store, 1, 0, .failed⟩
  | .ok articleText =>
    if articleText = "" ∨ articleText = "No article text found." then
      ⟨store, 1, 0, .noContent⟩
    else
      match env.clean articleText with
      | .error _ => ⟨store, 1, 1, .failed⟩
      | .ok c =>
        match jsOrKeep (some c.title) article.title with
        | none => ⟨store, 1, 1, .failed⟩
        | some t =>
          ⟨store3Set store (getDocIdFromUrl url) (mkDoc3 now article category url t c),
            1, 1, .persisted⟩

/-- `processArticle(article, category)` (`src/unnamed/part_003`,
lines 254-310).  `now` models `new Date().toISOString()`. -/
def processArticle (env : PipeEnv) (now : String) (article : RssArticle)
    (category : String) (store : Store3) : RunResult :=
  match article.link with
  | none => ⟨store, 0, 0, .noUrl⟩
  | some urlRaw =>
    if urlRaw = "" then ⟨store, 0, 0, .noUrl⟩
    else
      let url := jsTrim urlRaw
      match store3Get store (getDocIdFromUrl url) with
      | some data =>
        if data.description != "" then ⟨store, 0, 0, .skipped⟩
        else processArticleBody env now article category url store
      | none => processArticleBody env now article category url store

/- ===================== The /clean endpoint of the first file of part_003 =====================
Lines 53-115: on a parseable AI response the handler stores the cleaned
pair under `Buffer.from(cleaned.title).toString("base64")` — the store
key is derived from the AI-produced title, not from any URL. -/

/-- Request body of that `/clean` endpoint: `{ title, text }`. -/
structure CleanReq3 where
  title : Option String
  text : Option String
  deriving Repr

/-- The document it stores: `{ title, description, createdAt }`. -/
structure CleanDoc where
  title : String
  description : String
  createdAt : String
  deriving DecidableEq, Repr

/-- Response of that `/clean` endpoint. -/
inductive CleanResp3 where
  | missingInput
  | requestFailed
  | okResp (cleanedTitle cleanedDescription : String)
  deriving DecidableEq, Repr

/-- The `/clean` handler of the first file of `src/unnamed/part_003`
(lines 53-115).  `parse` models `JSON.parse` on the AI output, `ai`
the axios call to the rewrite service, `now` the clock.  Returns the
Firestore write it performs (key and document), if any, and the HTTP
response. -/
def cleanEndpointPart3 (parse : String → Option CleanData) (now : String)
    (req : CleanReq3) (ai : Except AxiosError String) :
    Option (String × CleanDoc) × CleanResp3 :=
  if jsFalsy req.title && jsFalsy req.text then (none, .missingInput)
  else
    match ai with
    | .error _ => (none, .requestFailed)
    | .ok content =>
      let cleaned : CleanData :=
        match parse content with
        | some p => p
        | none => ⟨jsOrOpt req.title "Untitled", jsOrOpt req.text ""⟩
      (some (bufferBase64 cleaned.title, ⟨cleaned.title, cleaned.description, now⟩),
        .okResp cleaned.title cleaned.description)

/-- A `JSON.parse` environment in which the rewrite service produced
title "Alpha" for its first response body and title "Beta" for its
second. -/
def parseTwoTitles : String → Option CleanData := fun s =>
  if s = "r1" then some ⟨"Alpha", "d"⟩
  else if s = "r2" then some ⟨"Beta", "d"⟩
  else none

/-- The same article text submitted twice. -/
def reqSameArticle : CleanReq3 := ⟨none, some "body"⟩

/-- Concrete environment for the C1 witness: scraping yields text and
the `/clean` endpoint returns a rewritten pair. -/
def envC1 : PipeEnv :=
  ⟨fun _ => .ok "Some article text.", fun _ => .ok ⟨"T", "D"⟩⟩

/-- Concrete RSS article for the C1 witness. -/
def artC1 : RssArticle := ⟨some "https://example.com/a", some "Raw", none, none⟩

/- ===================== part_001: processFeed / articleExists =====================
`src/unnamed/part_001`: `articleExists(url)` is only a presence test
(`!snapshot.empty`), and `processFeed` skips every existing record —
also the incomplete ones — and calls `/clean` on whatever `/scrape`
returned, including the "No article text found." sentinel. -/

/-- `cleanRes.data` as destructured by `processFeed`
(`{ title: cleanTitle, description: cleanDescription }`); fields may
be absent from the response body. -/
structure CleanDataOpt where
  title : Option String
  description : Option String
  deriving Repr

/-- One RSS item as `processFeed` reads it. -/
structure FeedItem where
  link : String
  title : Option String
  contentSnippet : Option String
  enclosureUrl : Option String
  pubDate : Option String
  deriving Repr

/-- A document of the `articles` collection as written by
`processFeed` via `db.collection("articles").add(...)`. -/
structure Rec1 where
  url : String
  category : String
  imageUrl : Option String
  title : String
  description : String
  time : String
  createdAt : String
  deriving DecidableEq, Repr

/-- Environment of `processFeed`: the `/scrape` and `/clean` HTTP
calls. -/
structure Env1 where
  scrape : String → Except AxiosError String
  clean : String → Except AxiosError CleanDataOpt

/-- `articleExists(url)` (`src/unnamed/part_001`, lines 25-28): the
query `where("url", "==", url).limit(1)` has a non-empty snapshot. -/
def articleExists (store : List Rec1) (url : String) : Bool :=
  store.any (fun r => r.url = url)

/-- The body of the `for (const item of feed.items)` loop of
`processFeed` (`src/unnamed/part_001`, lines 35-66) for one item:
returns the store afterwards and the number of `/scrape` and `/clean`
calls made.  A thrown error inside the loop body is caught per
article. -/
def processFeedItem (env : Env1) (now category : String) (item : FeedItem)
    (store : List Rec1) : List Rec1 × Nat × Nat :=
  if articleExists store item.link then (store, 0, 0)
  else
    match env.scrape item.link with
    | .error _ => (store, 1, 0)
    | .ok rawText =>
      match env.clean rawText with
      | .error _ => (store, 1, 1)
      | .ok c =>
        match jsOrKeep c.title item.title with
        | none => (store, 1, 1)
        | some t =>
          let rec1 : Rec1 :=
            ⟨item.link, category, jsOrKeep item.enclosureUrl none, t,
              jsOrOpt c.description (jsOrOpt item.contentSnippet ""),
              jsOrOpt item.pubDate now, now⟩
          (store ++ [rec1], 1, 1)

/-- An incomplete stored record (empty `description`) for the test
URL. -/
def rec1Incomplete : Rec1 :=
  ⟨"https://example.com/a", "Health", none, "Old title", "", "t0", "t0"⟩

/-- A feed item pointing at the test URL. -/
def item1 : FeedItem :=
  ⟨"https://example.com/a", some "RSS title", some "snippet", none, none⟩

/-- Environment in which scraping and cleaning would both succeed. -/
def env1C2 : Env1 :=
  ⟨fun _ => .ok "body text", fun _ => .ok ⟨some "T", some "D"⟩⟩

/-- Environment in which the `/scrape` endpoint returns its no-text
sentinel and `/clean` would succeed if called. -/
def env1C8 : Env1 :=
  ⟨fun _ => .ok "No article text found.", fun _ => .ok ⟨some "T", some "D"⟩⟩

/- ===================== part_002 / part_005: batch processing =====================
`cleanArticlesInBatch` (part_002 lines 90-131, part_005 lines 82-123)
wraps the retried rewrite call and falls back to echoing its input on
a non-parseable response.  The `/process-articles` endpoint
(part_002 lines 136-198) splits the URLs into batches, scrapes,
cleans and saves each batch inside one try/catch. -/

/-- A JavaScript error value as it matters here. -/
inductive JsError where
  | typeError
  | axios (e : AxiosError)
  deriving DecidableEq, Repr

/-- An element of the article arrays handled by the batch cleaner:
an object with `title` and `description` fields and possibly a `url`
field (the request items carry one; parsed response items need not). -/
structure ArticleItem where
  title : String
  description : String
  url : Option String
  deriving DecidableEq, Repr

/-- `cleanArticlesInBatch(articles, ...)`: the retried request either
threw (propagated), returned a body that `JSON.parse` accepts (the
parsed array is returned), or returned a non-parseable body (the
input `articles` array is returned unchanged).  `retryOutcome` is the
result of `retryOpenAIRequest`; `none` models the `undefined` the
helper returns when its loop never runs, on which `JSON.parse`
throws and the fallback also echoes the input. -/
def cleanArticlesInBatch (parse : String → Option (List ArticleItem))
    (articles : List ArticleItem)
    (retryOutcome : Option (Except AxiosError String)) :
    Except AxiosError (List ArticleItem) :=
  match retryOutcome with
  | some (.error e) => .error e
  | some (.ok s) =>
    match parse s with
    | some parsed => .ok parsed
    | none => .ok articles
  | none => .ok articles

/-- The article document written by the `/process-articles` save loop
(`src/unnamed/part_002`, lines 171-179). -/
structure SaveDoc where
  url : String
  title : String
  description : String
  imageUrl : Option String
  publishedAt : String
  source : String
  deriving DecidableEq, Repr

/-- One document of the save loop: `title` and `description` fall
back to `"Untitled News"` / `""`, `imageUrl` is `null`,
`publishedAt` is the current time, `source` is `"Unknown"`. -/
def mkSaveDoc (now url : String) (c : ArticleItem) : SaveDoc :=
  ⟨url, jsOrStr c.title "Untitled News", jsOrStr c.description "",
    none, now, "Unknown"⟩

/-- The save loop `for (let i = 0; i < cleanedArticles.length; i++)`
(`src/unnamed/part_002`, lines 166-182): iterates over the parsed
response array, pairing item `i` with `batch[i]`.  Past the end of
the batch, `batch[i]` is `undefined` and `Buffer.from(undefined)`
throws a `TypeError`.  Returns the writes performed, in order, and
the error that aborted the loop, if any. -/
def saveLoop (now : String) : List String → List ArticleItem →
    List (String × SaveDoc) × Option JsError
  | _, [] => ([], none)
  | [], _ :: _ => ([], some .typeError)
  | url :: bs, c :: cs =>
    let w := (bufferBase64 url, mkSaveDoc now url c)
    let r := saveLoop now bs cs
    (w :: r.1, r.2)

/-- `createBatches` / the inline batch split of `/process-articles`:
`for (let i = 0; i < urls.length; i += batchSize) batches.push(urls.slice(i, i + batchSize))`.
(`size = 0` would loop forever in JavaScript; it never occurs — the
callers use 5 and 10.) -/
def createBatchesAux (size : Nat) : Nat → List String → List (List String)
  | _, [] => []
  | 0, _ :: _ => []
  | fuel + 1, a :: rest =>
    if size = 0 then []
    else (a :: rest).take size :: createBatchesAux size fuel ((a :: rest).drop size)

/-- Batch split entry point: the fuel `urls.length` dominates the
iteration count because each step consumes at least one element. -/
def createBatches (size : Nat) (l : List String) : List (List String) :=
  createBatchesAux size l.length l

/-- Environment of the `/process-articles` endpoint of
`src/unnamed/part_002`: `scrapeDescriptionFromUrl` (total — it
catches its own errors and returns `""`), the rewrite service's
outcome per batch index and attempt, `JSON.parse`, and the clock. -/
structure Env2 where
  scrape : String → String
  ai : Nat → Nat → ReqOutcome
  parse : String → Option (List ArticleItem)
  now : String

/-- Step 1 of each batch: scrape every URL and build
`{ title: "", description, url }` items. -/
def articlesWithContent (env : Env2) (batch : List String) : List ArticleItem :=
  batch.map (fun url => ⟨"", env.scrape url, some url⟩)

/-- Step 2 of each batch: `cleanArticlesInBatch(articlesWithContent, batchIndex)`
composed with the retry helper at its call site
(`retryOpenAIRequest(requestFn, 3, 1500, batchIndex)`). -/
def cleanArticlesInBatchRun (env : Env2) (bIdx : Nat)
    (articles : List ArticleItem) : Except AxiosError (List ArticleItem) :=
  cleanArticlesInBatch env.parse articles
    (retryOpenAIRequest (env.ai bIdx) 3 1500).result

/-- `db.collection("articles").doc(docId).set(articleDoc)` over the
collection modelled as an association list. -/
def store2Set (s : List (String × SaveDoc)) (k : String) (d : SaveDoc) :
    List (String × SaveDoc) :=
  if (List.find? (fun p => p.1 = k) s).isSome then
    List.map (fun p => if p.1 = k then (k, d) else p) s
  else s ++ [(k, d)]

/-- The `for (let batchIndex = 0; ...)` loop of `/process-articles`
(`src/unnamed/part_002`, lines 151-191).  The whole loop runs inside
one `try`; any throw — the rewrite call exhausting its retries, or
the save loop's `TypeError` — aborts every remaining batch and
reaches the endpoint's `catch`. -/
def runBatches (env : Env2) : List (List String) → Nat →
    List (String × SaveDoc) → List (String × SaveDoc) × Option JsError
  | [], _, store => (store, none)
  | batch :: rest, bIdx, store =>
    let arts := articlesWithContent env batch
    match cleanArticlesInBatchRun env bIdx arts with
    | .error e => (store, some (.axios e))
    | .ok cleaned =>
      let sv := saveLoop env.now batch cleaned
      let store' := sv.1.foldl (fun s w => store2Set s w.1 w.2) store
      match sv.2 with
      | some je => (store', some je)
      | none => runBatches env rest (bIdx + 1) store'

/-- HTTP response of `/process-articles`. -/
inductive Resp2 where
  | badRequest
  | success
  | failure (e : JsError)
  deriving DecidableEq, Repr

/-- The `/process-articles` endpoint of `src/unnamed/part_002`
(lines 136-198). -/
def processArticlesEndpoint (env : Env2) (urls : List String)
    (batchSize : Nat) : List (String × SaveDoc) × Resp2 :=
  if urls = [] then ([], .badRequest)
  else
    let r := runBatches env (createBatches batchSize urls) 0 []
    match r.2 with
    | some e => (r.1, .failure e)
    | none => (r.1, .success)

/-- Environment for C4: the rewrite service fails batch 0 with HTTP
500 but would serve batch 1 with a parseable response. -/
def env2C4 : Env2 :=
  ⟨fun _ => "desc",
   fun bIdx _ => if bIdx = 0 then .err ⟨some 500⟩ else .ok "resp",
   fun s => if s = "resp" then some [⟨"T", "D", none⟩] else none,
   "t2"⟩

/- ===================== Store write semantics (C5) =====================
`processArticle` (part_003, lines 291-304) writes with
`docRef.set(..., { merge: true })`; the `/process-article` endpoint of
part_004 (line 136) and the `/process-articles` save loops (part_002
line 181, part_005 line 202) use a plain `docRef.set(articleDoc)`,
which replaces the whole document. -/

/-- A Firestore document as a field map; a `none` value is the JSON
`null` (the field is present but null). -/
abbrev FsDoc := List (String × Option String)

/-- The value stored under field `k`, if the field is present. -/
def fsLookup (d : FsDoc) (k : String) : Option (Option String) :=
  (List.find? (fun p => p.1 = k) d).map (fun p => p.2)

/-- `docRef.set(doc, { merge: true })` at field level: fields of the
new document overwrite; fields it lacks survive from the old one. -/
def fsSetMerge (old new : FsDoc) : FsDoc :=
  new ++ old.filter (fun p => (List.find? (fun q => q.1 = p.1) new).isNone)

/-- Plain `docRef.set(doc)`: the new document replaces the old one
entirely. -/
def fsSetPlain (_old new : FsDoc) : FsDoc := new

/-- The `articleDoc` written by `/process-article` of
`src/unnamed/part_004` (lines 126-135). -/
def part004ArticleDoc (url : String) (title description : String)
    (imageUrl : Option String) (publishedAt source now : String) : FsDoc :=
  [("url", some url), ("title", some title), ("description", some description),
   ("imageUrl", imageUrl), ("publishedAt", some publishedAt),
   ("source", some source), ("createdAt", some now)]

/-- A document previously stored for the same URL by the
`/process-article` variant that keeps `scrapedText` (third file of
`src/server.js`, lines 385-395). -/
def oldDocC5 : FsDoc :=
  [("url", some "https://example.com/a"), ("title", some "t0"),
   ("description", some "d0"), ("imageUrl", none),
   ("publishedAt", some "p0"), ("source", some "s0"),
   ("scrapedText", some "raw text"), ("createdAt", some "c0")]

/- ===================== Single-article rewrite on non-JSON (C6) ===================== -/

/-- `JSON.parse` result for the single-article rewrite: an object
whose `title` / `description` keys may be absent. -/
structure ParsedPair where
  title : Option String
  description : Option String
  deriving Repr

/-- Response of the `/clean` endpoint of the first file of
`src/server.js`. -/
inductive CleanSrvResp where
  | missingText
  | okJson (title description : String)
  | invalidJson (raw : String)
  | requestFailed
  deriving DecidableEq, Repr

/-- Whether the response is a structured `{title, description}`
success. -/
def CleanSrvResp.isStructured : CleanSrvResp → Bool
  | .okJson _ _ => true
  | _ => false

/-- The `/clean` endpoint of the first file of `src/server.js`
(lines 50-95): on a non-parseable AI output it answers HTTP 500
`"Invalid JSON from AI"`; on success it answers
`{title: parsed.title || "Untitled", description: parsed.description || ""}`. -/
def cleanEndpointServerJs (parse : String → Option ParsedPair)
    (text : Option String) (ai : Except AxiosError String) : CleanSrvResp :=
  if jsFalsy text then .missingText
  else
    match ai with
    | .error _ => .requestFailed
    | .ok content =>
      let aiOutput := jsTrim content
      match parse aiOutput with
      | none => .invalidJson aiOutput
      | some p => .okJson (jsOrOpt p.title "Untitled") (jsOrOpt p.description "")

/-- Output of `cleanTitleAndDescription` (part_004): the parsed object
(whose keys may be absent) or the fallback object. -/
structure CleanOut4 where
  title : Option String
  description : Option String
  deriving DecidableEq, Repr

/-- `cleanTitleAndDescription(title, description)`
(`src/unnamed/part_004`, lines 59-112): the retried rewrite call
either throws (outer catch → fallback), returns a parseable body (the
parsed object is returned as-is), or returns a non-parseable body
(inner catch → fallback).  The fallback is
`{title: title || "Untitled News", description: description || ""}`.
`retryOutcome` is the result of `retryOpenAIRequest`; `none` models
the `undefined` of an empty loop, on which `JSON.parse` throws. -/
def cleanTitleAndDescription (parse : String → Option ParsedPair)
    (title description : Option String)
    (retryOutcome : Option (Except AxiosError String)) : CleanOut4 :=
  match retryOutcome with
  | some (.ok cleaned) =>
    match parse cleaned with
    | some p => ⟨p.title, p.description⟩
    | none =>
      ⟨some (jsOrOpt title "Untitled News"), some (jsOrOpt description "")⟩
  | some (.error _) =>
    ⟨some (jsOrOpt title "Untitled News"), some (jsOrOpt description "")⟩
  | none =>
    ⟨some (jsOrOpt title "Untitled News"), some (jsOrOpt description "")⟩

theorem retryLoop_always429 : ∀ (f i delay : Nat), 0 < f →
    retryLoop always429 f i delay =
      ⟨(List.range (f - 1)).map (fun j => delay * 2 ^ j),
        f, some (.error ⟨some 429⟩)⟩ := by
  intro f
  induction f with
  | zero => intro i delay h; omega
  | succ n ih =>
    intro i delay _
    simp only [retryLoop, always429]
    by_cases hn : 0 < n
    · rw [if_pos (show True ∧ 0 < n from ⟨True.intro, hn⟩)]
      rw [ih (i + 1) (2 * delay) hn]
      simp only [RetryTrace.mk.injEq, Nat.add_sub_cancel]
      refine ⟨?_, trivial, trivial⟩
      have hr : n = (n - 1) + 1 := by omega
      rw [hr, List.range_succ_eq_map]
      simp only [List.map_cons, List.map_map, mul_one, pow_zero]
      rw [← hr]
      congr 1
      apply List.map_congr_left
      intro j _
      simp only [Function.comp_apply, Nat.succ_eq_add_one, pow_succ]
      ring
    · rw [if_neg (show ¬(True ∧ 0 < n) from fun ⟨_, hl⟩ => hn hl)]
      simp [show n = 0 by omega]

/-- Helper: the geometric wait sequence is monotonically
non-decreasing. -/
theorem geometric_waits_chain (n delay : Nat) :
    List.Chain' (· ≤ ·) ((List.range n).map (fun j => delay * 2 ^ j)) := by
  apply List.Pairwise.chain'
  rw [List.pairwise_map]
  apply List.Pairwise.imp_of_mem ?_ (List.pairwise_lt_range n)
  intro a b _ _ hab
  exact Nat.mul_le_mul_left delay (Nat.pow_le_pow_right (by norm_num) (Nat.le_of_lt hab))

/-- Claim C3: when every rewrite-service call returns HTTP 429,
`retryOpenAIRequest` makes exactly `retries` attempts and then
propagates the 429 failure; the waits slept before the successive
retries start at `delay` and double each attempt, hence are
monotonically non-decreasing. -/
theorem c3_retry_bound_on_persistent_429 (retries delay : Nat)
    (h : 1 ≤ retries) :
    (retryOpenAIRequest always429 retries delay).attempts = retries ∧
    (retryOpenAIRequest always429 retries delay).result =
      some (.error ⟨some 429⟩) ∧
    (retryOpenAIRequest always429 retries delay).waits =
      (List.range (retries - 1)).map (fun j => delay * 2 ^ j) ∧
    List.Chain' (· ≤ ·) (retryOpenAIRequest always429 retries delay).waits := by
  have := retryLoop_always429 retries 0 delay (by omega)
  rw [retryOpenAIRequest, this]
  refine ⟨by simp, rfl, by simp, ?_⟩
  simpa using geometric_waits_chain (retries - 1) delay

/-- Witness for C3: with the default `retries = 3`, `delay = 1500`
used by the callers, exactly 3 attempts are made, the failure is
propagated, and the waits are `[1500, 3000]`. -/
theorem c3_retry_bound_on_persistent_429_witness :
    (retryOpenAIRequest always429 3 1500).attempts = 3 ∧
    (retryOpenAIRequest always429 3 1500).result =
      some (.error ⟨some 429⟩) ∧
    (retryOpenAIRequest always429 3 1500).waits = [1500, 3000] := by
  obtain ⟨h1, h2, h3, _⟩ := c3_retry_bound_on_persistent_429 3 1500 (by norm_num)
  exact ⟨h1, h2, by rw [h3]; rfl⟩

/-- Claim C9: a failure other than HTTP 429 on the first attempt is
propagated immediately: exactly one attempt, no waits, the error
returned to the caller. -/
theorem c9_non429_propagates_immediately (req : Nat → ReqOutcome)
    (retries delay : Nat) (e : AxiosError)
    (hr : 1 ≤ retries) (h0 : req 0 = .err e) (hne : e.status ≠ some 429) :
    retryOpenAIRequest req retries delay = ⟨[], 1, some (.error e)⟩ := by
  obtain ⟨f, rfl⟩ : ∃ f, retries = f + 1 := ⟨retries - 1, by omega⟩
  rw [retryOpenAIRequest]
  simp only [retryLoop, h0]
  rw [if_neg (show ¬(e.status = some 429 ∧ 0 < f) from fun ⟨h429, _⟩ => hne h429)]

/-- Witness for C9: a mock that fails with HTTP 500 on every attempt,
run with the default `retries = 3`, `delay = 1000`: one attempt, no
waits, the HTTP 500 error propagated. -/
theorem c9_non429_propagates_immediately_witness :
    retryOpenAIRequest (fun _ => .err ⟨some 500⟩) 3 1000 =
      ⟨[], 1, some (.error ⟨some 500⟩)⟩ :=
  c9_non429_propagates_immediately (fun _ => .err ⟨some 500⟩) 3 1000
    ⟨some 500⟩ (by norm_num) rfl (by simp)

/-- The existence check: a stored record with non-empty `description`
short-circuits the run — no scrape, no clean, store untouched. -/
theorem processArticle_skip (env : PipeEnv) (now : String) (art : RssArticle)
    (cat u : String) (store : Store3) (d : Doc3)
    (hlink : art.link = some u) (hne : u ≠ "")
    (hget : store3Get store (getDocIdFromUrl (jsTrim u)) = some d)
    (hd : d.description ≠ "") :
    processArticle env now art cat store = ⟨store, 0, 0, .skipped⟩ := by
  simp only [processArticle, hlink]
  rw [if_neg hne, hget]
  simp [hd]

/-- A record with empty `description` (or no record) lets the run
proceed to the pipeline body. -/
theorem processArticle_proceed (env : PipeEnv) (now : String) (art : RssArticle)
    (cat u : String) (store : Store3)
    (hlink : art.link = some u) (hne : u ≠ "")
    (hget : ∀ d, store3Get store (getDocIdFromUrl (jsTrim u)) = some d →
      d.description = "") :
    processArticle env now art cat store =
      processArticleBody env now art cat (jsTrim u) store := by
  simp only [processArticle, hlink]
  rw [if_neg hne]
  cases hg : store3Get store (getDocIdFromUrl (jsTrim u)) with
  | none => rfl
  | some d => simp [hget d hg]

/-- Counterexample to claim C1: in the `/clean` handler of
`src/unnamed/part_003` (first file) the document key is
`base64(cleaned.title)`, a function of the AI response, not of the
article URL alone — the same article text processed twice under two
AI outputs is stored under two different keys, so repeated ingestion
does not resolve to one record keyed by a function of the URL. -/
theorem c1_counterexample_title_keyed_store :
    (cleanEndpointPart3 parseTwoTitles "t0" reqSameArticle (.ok "r1")).1.map
        Prod.fst = some "QWxwaGE=" ∧
    (cleanEndpointPart3 parseTwoTitles "t0" reqSameArticle (.ok "r2")).1.map
        Prod.fst = some "QmV0YQ==" ∧
    ("QWxwaGE=" : String) ≠ "QmV0YQ==" := by
  refine ⟨?_, ?_, by decide⟩ <;> decide

/-- Claim C1 (amended to the hash-keyed pipeline of
`src/unnamed/part_003`): `getDocIdFromUrl` is a function of the URL
alone, and running `processArticle` twice from an empty store yields
exactly one record, keyed `getDocIdFromUrl(url)`; once its
`description` is non-empty the second run skips — zero scrape/clean
calls — and leaves every field unchanged. -/
theorem c1_amended_hash_pipeline_idempotent (env : PipeEnv) (now : String)
    (art : RssArticle) (cat u : String)
    (hlink : art.link = some u) (hne : u ≠ "")
    (hp : (processArticle env now art cat []).state = .persisted) :
    ∃ d, (processArticle env now art cat []).store =
        [(getDocIdFromUrl (jsTrim u), d)] ∧
      (d.description ≠ "" →
        processArticle env now art cat (processArticle env now art cat []).store =
          ⟨(processArticle env now art cat []).store, 0, 0, .skipped⟩) := by
  have hproc : processArticle env now art cat [] =
      processArticleBody env now art cat (jsTrim u) [] :=
    processArticle_proceed env now art cat u [] hlink hne
      (by intro d hd; simp [store3Get] at hd)
  rw [hproc] at hp
  unfold processArticleBody at hp
  cases hs : env.scrape (jsTrim u) with
  | error e => simp only [hs] at hp; simp at hp
  | ok t =>
    simp only [hs] at hp
    by_cases ht : t = "" ∨ t = "No article text found."
    · rw [if_pos ht] at hp; simp at hp
    · rw [if_neg ht] at hp
      cases hc : env.clean t with
      | error e => simp only [hc] at hp; simp at hp
      | ok c =>
        simp only [hc] at hp
        cases hk : jsOrKeep (some c.title) art.title with
        | none => simp only [hk] at hp; simp at hp
        | some ttl =>
          have heq : processArticle env now art cat [] =
              ⟨[(getDocIdFromUrl (jsTrim u), mkDoc3 now art cat (jsTrim u) ttl c)],
                1, 1, .persisted⟩ := by
            rw [hproc]
            unfold processArticleBody
            simp only [hs]
            rw [if_neg ht]
            simp only [hc, hk]
            simp [store3Set]
          rw [heq]
          refine ⟨mkDoc3 now art cat (jsTrim u) ttl c, rfl, ?_⟩
          intro hd
          exact processArticle_skip env now art cat u _ _ hlink hne
            (by simp [store3Get]) hd

/-- Witness for the amended C1: at a concrete URL, environment and
empty store, the first run persists exactly one record keyed
`getDocIdFromUrl` of the URL and the second run leaves it unchanged. -/
theorem c1_amended_hash_pipeline_idempotent_witness :
    ∃ d, (processArticle envC1 "t0" artC1 "Health" []).store =
        [(getDocIdFromUrl (jsTrim "https://example.com/a"), d)] ∧
      (d.description ≠ "" →
        processArticle envC1 "t0" artC1 "Health"
            (processArticle envC1 "t0" artC1 "Health" []).store =
          ⟨(processArticle envC1 "t0" artC1 "Health" []).store, 0, 0, .skipped⟩) :=
  c1_amended_hash_pipeline_idempotent envC1 "t0" artC1 "Health"
    "https://example.com/a" rfl (by decide) (by decide)

/-- Every branch of the pipeline body issues exactly one `/scrape`
call. -/
theorem processArticleBody_scrapeCalls (env : PipeEnv) (now : String)
    (art : RssArticle) (cat url : String) (store : Store3) :
    (processArticleBody env now art cat url store).scrapeCalls = 1 := by
  unfold processArticleBody
  cases env.scrape url with
  | error e => rfl
  | ok t =>
    dsimp only
    by_cases ht : t = "" ∨ t = "No article text found."
    · rw [if_pos ht]
    · rw [if_neg ht]
      cases env.clean t with
      | error e => rfl
      | ok c =>
        dsimp only
        cases jsOrKeep (some c.title) art.title <;> rfl

/-- When scraping yields usable text and `/clean` answers, the body
issues exactly one `/clean` call. -/
theorem processArticleBody_cleanCalls (env : PipeEnv) (now : String)
    (art : RssArticle) (cat url : String) (store : Store3) (t : String)
    (c : CleanData) (hs : env.scrape url = .ok t)
    (ht : ¬(t = "" ∨ t = "No article text found."))
    (hc : env.clean t = .ok c) :
    (processArticleBody env now art cat url store).cleanCalls = 1 := by
  unfold processArticleBody
  simp only [hs]
  rw [if_neg ht]
  simp only [hc]
  cases jsOrKeep (some c.title) art.title <;> rfl

/-- Counterexample to claim C2: `articleExists` of
`src/unnamed/part_001` does not distinguish "record present with
empty `description`" from a complete record — with an incomplete
record in the store, `processFeed` skips the item and the extractor
and rewrite are not re-run (zero `/scrape` and `/clean` calls). -/
theorem c2_counterexample_incomplete_record_not_reprocessed :
    processFeedItem env1C2 "t1" "Health" item1 [rec1Incomplete] =
      ([rec1Incomplete], 0, 0) ∧ rec1Incomplete.description = "" := by
  constructor <;> rfl

/-- Claim C2 (amended to `processArticle` of `src/unnamed/part_003`,
which alone distinguishes the three cases): a record with non-empty
`description` short-circuits with zero extractor/rewrite calls; a
record with empty `description` is reprocessed (the extractor runs,
and the rewrite runs too once extraction yields usable text and the
rewrite answers); no record proceeds normally (the extractor runs). -/
theorem c2_amended_exists_check_trichotomy (env : PipeEnv) (now : String)
    (art : RssArticle) (cat u : String) (store : Store3)
    (hlink : art.link = some u) (hne : u ≠ "") :
    (∀ d, store3Get store (getDocIdFromUrl (jsTrim u)) = some d →
      d.description ≠ "" →
      processArticle env now art cat store = ⟨store, 0, 0, .skipped⟩) ∧
    (∀ d, store3Get store (getDocIdFromUrl (jsTrim u)) = some d →
      d.description = "" →
      (processArticle env now art cat store).scrapeCalls = 1 ∧
      (∀ t c, env.scrape (jsTrim u) = .ok t →
        ¬(t = "" ∨ t = "No article text found.") → env.clean t = .ok c →
        (processArticle env now art cat store).cleanCalls = 1)) ∧
    (store3Get store (getDocIdFromUrl (jsTrim u)) = none →
      (processArticle env now art cat store).scrapeCalls = 1) := by
  refine ⟨?_, ?_, ?_⟩
  · intro d hget hd
    exact processArticle_skip env now art cat u store d hlink hne hget hd
  · intro d hget hd
    have hproc : processArticle env now art cat store =
        processArticleBody env now art cat (jsTrim u) store :=
      processArticle_proceed env now art cat u store hlink hne
        (by intro d' hd'; rw [hget] at hd'; cases hd'; exact hd)
    rw [hproc]
    refine ⟨processArticleBody_scrapeCalls env now art cat (jsTrim u) store, ?_⟩
    intro t c hs ht hc
    exact processArticleBody_cleanCalls env now art cat (jsTrim u) store t c hs ht hc
  · intro hget
    have hproc : processArticle env now art cat store =
        processArticleBody env now art cat (jsTrim u) store :=
      processArticle_proceed env now art cat u store hlink hne
        (by intro d' hd'; rw [hget] at hd'; cases hd')
    rw [hproc]
    exact processArticleBody_scrapeCalls env now art cat (jsTrim u) store

/-- Witness for the amended C2, applying the trichotomy at a concrete
environment: a complete record short-circuits, and with an empty
store the extractor runs. -/
theorem c2_amended_exists_check_trichotomy_witness :
    processArticle envC1 "t1" artC1 "Health"
        [(getDocIdFromUrl "https://example.com/a",
          ⟨"https://example.com/a", "T", "D", none, "t0", "Times of India",
            "Health", "t0"⟩)] =
      ⟨[(getDocIdFromUrl "https://example.com/a",
          ⟨"https://example.com/a", "T", "D", none, "t0", "Times of India",
            "Health", "t0"⟩)], 0, 0, .skipped⟩ ∧
    (processArticle envC1 "t1" artC1 "Health" []).scrapeCalls = 1 := by
  constructor
  · exact (c2_amended_exists_check_trichotomy envC1 "t1" artC1 "Health"
      "https://example.com/a" _ rfl (by decide)).1
      ⟨"https://example.com/a", "T", "D", none, "t0", "Times of India",
        "Health", "t0"⟩ (by decide) (by decide)
  · exact (c2_amended_exists_check_trichotomy envC1 "t1" artC1 "Health"
      "https://example.com/a" [] rfl (by decide)).2.2 (by decide)

/-- Counterexample to claim C8: `processFeed` of `src/unnamed/part_001`
calls the `/clean` rewrite endpoint even when extraction produced the
"No article text found." sentinel — one `/clean` call is made and the
persisted record's `description` is the non-empty rewrite output, not
empty. -/
theorem c8_counterexample_sentinel_still_rewritten :
    processFeedItem env1C8 "t1" "Health" item1 [] =
      ([⟨"https://example.com/a", "Health", none, "T", "D", "t1", "t1"⟩], 1, 1) ∧
    ("D" : String) ≠ "" := by
  constructor
  · rfl
  · decide

/-- Claim C8 (amended to `processArticle` of `src/unnamed/part_003`):
when a run reaches extraction (no complete record stored) and the
extractor yields no usable text — empty or the no-text sentinel — the
run terminates in `NoContent`, makes zero `/clean` calls, leaves the
store unchanged, and any record stored for that URL still has an
empty `description`. -/
theorem c8_amended_no_content_skips_rewrite (env : PipeEnv) (now : String)
    (art : RssArticle) (cat u t : String) (store : Store3)
    (hlink : art.link = some u) (hne : u ≠ "")
    (hget : ∀ d, store3Get store (getDocIdFromUrl (jsTrim u)) = some d →
      d.description = "")
    (hs : env.scrape (jsTrim u) = .ok t)
    (ht : t = "" ∨ t = "No article text found.") :
    processArticle env now art cat store = ⟨store, 1, 0, .noContent⟩ ∧
    (∀ d, store3Get (processArticle env now art cat store).store
        (getDocIdFromUrl (jsTrim u)) = some d → d.description = "") := by
  have h1 : processArticle env now art cat store =
      processArticleBody env now art cat (jsTrim u) store :=
    processArticle_proceed env now art cat u store hlink hne hget
  have h2 : processArticleBody env now art cat (jsTrim u) store =
      ⟨store, 1, 0, .noContent⟩ := by
    unfold processArticleBody
    simp only [hs]
    rw [if_pos ht]
  refine ⟨h1.trans h2, ?_⟩
  rw [h1, h2]
  exact hget

/-- Witness for the amended C8: concrete URL, store already holding an
incomplete record for it, extractor returning `""`: the run ends in
`NoContent` with zero rewrite calls and the record stays incomplete. -/
theorem c8_amended_no_content_skips_rewrite_witness :
    processArticle ⟨fun _ => .ok "", fun _ => .ok ⟨"T", "D"⟩⟩ "t1" artC1 "Health"
        [(getDocIdFromUrl (jsTrim "https://example.com/a"),
          ⟨"https://example.com/a", "Old", "", none, "t0", "Times of India",
            "Health", "t0"⟩)] =
      ⟨[(getDocIdFromUrl (jsTrim "https://example.com/a"),
          ⟨"https://example.com/a", "Old", "", none, "t0", "Times of India",
            "Health", "t0"⟩)], 1, 0, .noContent⟩ :=
  (c8_amended_no_content_skips_rewrite ⟨fun _ => .ok "", fun _ => .ok ⟨"T", "D"⟩⟩
    "t1" artC1 "Health" "https://example.com/a" "" _ rfl (by decide)
    (by decide) rfl (Or.inl rfl)).1

/-- Claim C7: whenever the rewrite service's response body is not
parseable as JSON, `cleanArticlesInBatch` returns the input items
array unchanged — each input item echoed at its original position —
instead of raising. -/
theorem c7_batch_fallback_echoes_input
    (parse : String → Option (List ArticleItem))
    (articles : List ArticleItem) (s : String) (hp : parse s = none) :
    cleanArticlesInBatch parse articles (some (.ok s)) = .ok articles := by
  simp [cleanArticlesInBatch, hp]

/-- Witness for C7: a concrete batch of two items and a non-JSON
response body; the result is exactly the input array. -/
theorem c7_batch_fallback_echoes_input_witness :
    cleanArticlesInBatch (fun _ => none)
        [⟨"", "d1", some "u1"⟩, ⟨"", "d2", some "u2"⟩]
        (some (.ok "I am not JSON")) =
      .ok [⟨"", "d1", some "u1"⟩, ⟨"", "d2", some "u2"⟩] :=
  c7_batch_fallback_echoes_input (fun _ => none)
    [⟨"", "d1", some "u1"⟩, ⟨"", "d2", some "u2"⟩] "I am not JSON" rfl

/-- Claim C10: the save loop associates responses with URLs purely by
index: for a parsed response of length `m` and a batch of length `n`,
exactly the first `min m n` batch URLs receive a write — response
item `i` written under `Buffer.from(batch[i]).toString("base64")` —
trailing batch URLs are silently unpersisted when `m < n`, and when
`m > n` the iteration past the batch's end hits the out-of-bounds
`undefined` URL and aborts with a `TypeError`. -/
theorem c10_save_loop_positional (now : String) (batch : List String)
    (cleaned : List ArticleItem) :
    (saveLoop now batch cleaned).1 =
      List.zipWith (fun url c => (bufferBase64 url, mkSaveDoc now url c))
        batch cleaned ∧
    (saveLoop now batch cleaned).1.length = min cleaned.length batch.length ∧
    (saveLoop now batch cleaned).2 =
      (if batch.length < cleaned.length then some .typeError else none) := by
  induction cleaned generalizing batch with
  | nil =>
    cases batch <;> simp [saveLoop]
  | cons c cs ih =>
    cases batch with
    | nil => simp [saveLoop]
    | cons url bs =>
      obtain ⟨h1, h2, h3⟩ := ih bs
      refine ⟨?_, ?_, ?_⟩
      · simp [saveLoop, h1]
      · simp only [saveLoop, List.length_cons, h2]
        omega
      · simp only [saveLoop, h3, List.length_cons]
        by_cases hlt : bs.length < cs.length
        · rw [if_pos hlt, if_pos (by omega)]
        · rw [if_neg hlt, if_neg (by omega)]

/-- Counterexample to claim C4: two URLs in batches of one; batch 0's
rewrite call throws, and although batch 1 would succeed, the endpoint
aborts — no record is written for the second URL and the response is
a global failure, not an aggregate reporting the surviving subset. -/
theorem c4_counterexample_batch_failure_global :
    processArticlesEndpoint env2C4 ["u1", "u2"] 1 =
      ([], .failure (.axios ⟨some 500⟩)) ∧
    cleanArticlesInBatchRun env2C4 1 (articlesWithContent env2C4 ["u2"]) =
      .ok [⟨"T", "D", none⟩] := by
  constructor <;> rfl

/-- Claim C4 (amended): a failure inside one batch of
`/process-articles` is global, not isolated — when the rewrite call
of the current batch throws, the endpoint loop stops: no write is
performed for that batch or for any later batch, and the error
propagates to the endpoint's catch. -/
theorem c4_amended_batch_failure_aborts (env : Env2) (batch : List String)
    (rest : List (List String)) (bIdx : Nat)
    (store : List (String × SaveDoc)) (e : AxiosError)
    (hfail : cleanArticlesInBatchRun env bIdx (articlesWithContent env batch) =
      .error e) :
    runBatches env (batch :: rest) bIdx store = (store, some (.axios e)) := by
  unfold runBatches
  simp only [hfail]

/-- Witness for the amended C4: concrete environment failing on batch
0 with one further batch pending; the loop stops with the store
untouched. -/
theorem c4_amended_batch_failure_aborts_witness :
    runBatches env2C4 [["u1"], ["u2"]] 0 [] = ([], some (.axios ⟨some 500⟩)) :=
  c4_amended_batch_failure_aborts env2C4 ["u1"] [["u2"]] 0 [] ⟨some 500⟩ rfl

/-- Counterexample to claim C5: the store write of
`/process-article` (part_004) is a plain `set`, not a merge — writing
a new record that lacks the `scrapedText` field deletes the field
from the existing record instead of leaving it unchanged. -/
theorem c5_counterexample_plain_set_drops_absent_fields :
    fsLookup oldDocC5 "scrapedText" = some (some "raw text") ∧
    fsLookup
        (fsSetPlain oldDocC5
          (part004ArticleDoc "https://example.com/a" "T" "D" none "p1" "s1" "c1"))
        "scrapedText" = none := by
  constructor <;> rfl

/-- `find?` ignores a filter whose predicate is implied by the search
predicate. -/
theorem find?_filter_of_imp {α : Type} (l : List α) (p q : α → Bool)
    (h : ∀ x, p x = true → q x = true) :
    (l.filter q).find? p = l.find? p := by
  induction l with
  | nil => rfl
  | cons a t ih =>
    by_cases hpa : p a = true
    · rw [List.filter_cons, if_pos (h a hpa)]
      rw [List.find?_cons_of_pos _ hpa, List.find?_cons_of_pos _ hpa]
    · have hpa' : ¬p a = true := hpa
      by_cases hqa : q a = true
      · rw [List.filter_cons, if_pos hqa]
        rw [List.find?_cons_of_neg _ hpa', List.find?_cons_of_neg _ hpa', ih]
      · rw [List.filter_cons, if_neg hqa, List.find?_cons_of_neg _ hpa', ih]

/-- Claim C5 (amended to the write actually performed with
`{ merge: true }` by `processArticle` of part_003): the merge write
overwrites exactly the fields present in the new record and leaves
every field absent from the new record unchanged; the plain `set`
used by part_004/part_005 does not have this property (see the
counterexample). -/
theorem c5_amended_merge_preserves_absent_fields (old new : FsDoc) (k : String) :
    (fsLookup new k = none → fsLookup (fsSetMerge old new) k = fsLookup old k) ∧
    (∀ v, fsLookup new k = some v → fsLookup (fsSetMerge old new) k = some v) := by
  constructor
  · intro hnone
    have hfind : List.find? (fun p => p.1 = k) new = none := by
      cases hf : List.find? (fun p => p.1 = k) new with
      | none => rfl
      | some pr => rw [fsLookup, hf] at hnone; simp at hnone
    rw [fsLookup, fsSetMerge, List.find?_append, hfind, Option.none_or]
    rw [find?_filter_of_imp]
    · rfl
    · intro x hx
      simp only [decide_eq_true_eq] at hx
      rw [hx, hfind]
      rfl
  · intro v hv
    cases hf : List.find? (fun p => p.1 = k) new with
    | none => rw [fsLookup, hf] at hv; simp at hv
    | some pr =>
      rw [fsLookup, hf] at hv
      rw [fsLookup, fsSetMerge, List.find?_append, hf]
      simpa using hv

/-- Witness for the amended C5: merging part_004's document into
`oldDocC5` keeps the absent `scrapedText` field and overwrites the
present `title` field. -/
theorem c5_amended_merge_preserves_absent_fields_witness :
    fsLookup
        (fsSetMerge oldDocC5
          (part004ArticleDoc "https://example.com/a" "T" "D" none "p1" "s1" "c1"))
        "scrapedText" = fsLookup oldDocC5 "scrapedText" ∧
    fsLookup
        (fsSetMerge oldDocC5
          (part004ArticleDoc "https://example.com/a" "T" "D" none "p1" "s1" "c1"))
        "title" = some (some "T") := by
  constructor
  · exact (c5_amended_merge_preserves_absent_fields oldDocC5
      (part004ArticleDoc "https://example.com/a" "T" "D" none "p1" "s1" "c1")
      "scrapedText").1 rfl
  · exact (c5_amended_merge_preserves_absent_fields oldDocC5
      (part004ArticleDoc "https://example.com/a" "T" "D" none "p1" "s1" "c1")
      "title").2 (some "T") rfl

/-- Counterexample to claim C6: the `/clean` endpoint of
`src/server.js`, given a successful rewrite call whose body is not
parseable as JSON, answers the 500 error `Invalid JSON from AI` — it
does not return a structured `{title, description}` fallback. -/
theorem c6_counterexample_clean_endpoint_500_on_non_json :
    cleanEndpointServerJs (fun _ => none) (some "article body") (.ok "oops") =
      .invalidJson "oops" ∧
    (cleanEndpointServerJs (fun _ => none) (some "article body")
        (.ok "oops")).isStructured = false := by
  constructor <;> rfl

/-- Claim C6 (amended to `cleanTitleAndDescription` of part_004, the
single-article rewrite helper that does implement the fallback): on a
successful call whose body is not parseable as JSON it does not
raise; it returns the structured fallback
`{title: title || "Untitled News", description: description || ""}`,
whose `title` is non-empty — substitutable for a parsed result.  The
`/clean` endpoint of `src/server.js` instead answers a 500 error
(see the counterexample). -/
theorem c6_amended_helper_fallback_on_non_json
    (parse : String → Option ParsedPair) (title description : Option String)
    (s : String) (hp : parse s = none) :
    cleanTitleAndDescription parse title description (some (.ok s)) =
      ⟨some (jsOrOpt title "Untitled News"), some (jsOrOpt description "")⟩ ∧
    jsOrOpt title "Untitled News" ≠ "" := by
  constructor
  · simp [cleanTitleAndDescription, hp]
  · cases title with
    | none => simp [jsOrOpt]
    | some t =>
      simp only [jsOrOpt, jsOrStr]
      by_cases ht : t = ""
      · simp [ht]
      · simp [ht]

/-- Witness for the amended C6: concrete inputs and a non-JSON body;
the fallback object is returned and its title `"Orig"` is
non-empty. -/
theorem c6_amended_helper_fallback_on_non_json_witness :
    cleanTitleAndDescription (fun _ => none) (some "Orig") (some "Desc")
        (some (.ok "not json")) =
      ⟨some (jsOrOpt (some "Orig") "Untitled News"),
        some (jsOrOpt (some "Desc") "")⟩ ∧
    jsOrOpt (some "Orig") "Untitled News" ≠ "" :=
  c6_amended_helper_fallback_on_non_json (fun _ => none) (some "Orig")
    (some "Desc") "not json" rfl
